import Mathlib

/-!
Shallow embedding of the product-catalog page (src/app/page.tsx).

The page has two parts:
  * `getProducts` — fetches `https://fakestoreapi.com/products`, throws on a
    non-ok HTTP status, parses the body with `res.json()`, and returns the
    parsed value; the whole body sits in a `try`/`catch` whose handler logs
    the error and returns `[]`, so the caller only ever receives a value.
  * `Home` — awaits `getProducts()` and renders either a centered empty-state
    message (when `products.length === 0`) or a responsive grid of cards,
    one per product, each card showing the image, a title truncated at 50
    characters, a description truncated at 100 characters, the price as
    `$` followed by the number, a star glyph next to `rate (count)`, and
    the category label.

JavaScript numbers are embedded as rationals (`ℚ`); the default
number-to-string conversion used by the template literals is embedded by
`jsNumToString`, which produces the terminating decimal expansion (exact for
every decimally-representable value such as the prices and rating values the
page handles).  JavaScript strings are embedded as Lean `String`s: lengths
and `substring` indices are counted in characters.  The parsed JSON value
returned by `res.json()` is embedded as `JsValue`; a body that is not valid
JSON (so that `res.json()` throws) is embedded as `none`.
-/

/-- A JavaScript value as produced by `res.json()`: null, boolean, number,
string, array or object (an association list of fields). -/
inductive JsValue where
  | nullV : JsValue
  | boolV (b : Bool) : JsValue
  | num (q : ℚ) : JsValue
  | str (s : String) : JsValue
  | arr (items : List JsValue) : JsValue
  | obj (fields : List (String × JsValue)) : JsValue

/-- The `rating` component of a product: `{ rate: number; count: number }`. -/
structure Rating where
  rate : ℚ
  count : ℚ
deriving DecidableEq

/-- The `Product` interface of src/app/page.tsx. -/
structure Product where
  id : ℚ
  title : String
  price : ℚ
  description : String
  category : String
  image : String
  rating : Rating
deriving DecidableEq

/-- Decimal digits of the fraction `num / den` (with `num < den`), most
significant first, stopping when the remainder is zero; `fuel` bounds the
number of digits produced. -/
def fracDigits : Nat → Nat → Nat → List Char
  | 0, _, _ => []
  | fuel + 1, num, den =>
    if num = 0 then []
    else Char.ofNat (48 + num * 10 / den) :: fracDigits fuel (num * 10 % den) den

/-- The default JavaScript number-to-string conversion (as performed by the
template literals of the page) for rationals with a terminating decimal
expansion: optional sign, integer part, and the fractional digits without
trailing zeros, with no fixed number of decimal places. -/
def jsNumToString (q : ℚ) : String :=
  let sign := if q.num < 0 then "-" else ""
  let n := q.num.natAbs
  let d := q.den
  let fpart := fracDigits 20 (n % d) d
  sign ++ toString (n / d) ++ (if fpart.isEmpty then "" else "." ++ String.mk fpart)

/-- One rendered product card (lines 63–104 of src/app/page.tsx): the `key`
attribute, the framed image (`src`/`alt`), the truncated title and
description, the price text, the star glyph and the rating text (two adjacent
spans separated by a CSS gap), and the text of the pill-shaped
(`rounded-full`) category label. -/
structure Card where
  key : ℚ
  imageSrc : String
  imageAlt : String
  titleText : String
  descriptionText : String
  priceText : String
  ratingStarText : String
  ratingText : String
  categoryText : String
deriving DecidableEq

/-- Rendering of a single product into a card, following lines 63–104:
`title.length > 50 ? title.substring(0, 50) + "..." : title`, the same for
the description at 100, `$` followed by the price, `★` in its own span,
`rate (count)`, and the category. -/
def renderCard (p : Product) : Card :=
  { key := p.id
    imageSrc := p.image
    imageAlt := p.title
    titleText :=
      if p.title.length > 50 then p.title.take 50 ++ "..." else p.title
    descriptionText :=
      if p.description.length > 100 then p.description.take 100 ++ "..." else p.description
    priceText := "$" ++ jsNumToString p.price
    ratingStarText := "★"
    ratingText := jsNumToString p.rating.rate ++ " (" ++ jsNumToString p.rating.count ++ ")"
    categoryText := p.category }

/-- The conditional region of the page (lines 54–107): either the single
centered empty-state message `暂无产品数据` (and nothing else — no cards), or
the grid of cards. -/
inductive HomeBody where
  | emptyState (message : String)
  | grid (cards : List Card)
deriving DecidableEq

/-- `products.length === 0 ? <empty state> : <grid of products.map(...)>`. -/
def renderHome (products : List Product) : HomeBody :=
  if products.length = 0 then HomeBody.emptyState "暂无产品数据"
  else HomeBody.grid (products.map renderCard)

/-- The whole page: the `产品列表` heading followed by the conditional
region. -/
structure Page where
  heading : String
  body : HomeBody
deriving DecidableEq

/-- The pure rendering part of `Home` (lines 47–110). -/
def renderPage (products : List Product) : Page :=
  { heading := "产品列表", body := renderHome products }

/-- The observable part of a fetch `Response`: the HTTP status, the status
text, and the result of `res.json()` — `some v` when the body parses as the
JSON value `v`, `none` when the body is not valid JSON and `res.json()`
throws. -/
structure FetchResponse where
  status : Nat
  statusText : String
  body : Option JsValue

/-- The outcome of `await fetch(...)`: either the promise rejects (transport
failure: DNS, connection, timeout) or a response arrives. -/
inductive FetchAttempt where
  | transportError : FetchAttempt
  | ok (r : FetchResponse) : FetchAttempt

/-- `res.ok` of the WHATWG fetch API: the status is in the range 200–299. -/
def respOk (status : Nat) : Bool :=
  decide (200 ≤ status ∧ status ≤ 299)

/-- The body of the `try` block of `getProducts` (lines 22–36): a transport
failure rejects, a non-ok status throws
`Failed to fetch products: <status> <statusText>`, a body that is not valid
JSON makes `res.json()` throw, and otherwise the parsed value is returned
verbatim — the code performs no validation of its shape against `Product[]`.
-/
def getProductsTry (f : FetchAttempt) : Except String JsValue :=
  match f with
  | FetchAttempt.transportError => Except.error "TypeError: fetch failed"
  | FetchAttempt.ok r =>
    if respOk r.status then
      match r.body with
      | none => Except.error "SyntaxError: response body is not valid JSON"
      | some data => Except.ok data
    else
      Except.error ("Failed to fetch products: " ++ toString r.status ++ " " ++ r.statusText)

/-- `getProducts` (lines 21–42): the `try` body wrapped in the `catch`
handler, which logs the error and returns `[]`; the function always returns
a value and never propagates an exception. -/
def getProducts (f : FetchAttempt) : JsValue :=
  match getProductsTry f with
  | Except.ok data => data
  | Except.error _ => JsValue.arr []

/-- Extracts a number from a `JsValue`. -/
def jNum : JsValue → Option ℚ
  | JsValue.num q => some q
  | _ => none

/-- Extracts a string from a `JsValue`. -/
def jStr : JsValue → Option String
  | JsValue.str s => some s
  | _ => none

/-- Reads a JSON object as a `Rating` record. -/
def decodeRating (v : JsValue) : Option Rating :=
  match v with
  | JsValue.obj fields => do
    let rate ← (fields.lookup "rate").bind jNum
    let count ← (fields.lookup "count").bind jNum
    pure { rate := rate, count := count }
  | _ => none

/-- Reads a JSON object as a `Product` record.  The TypeScript code performs
no such check at runtime (the parsed value is only cast to `Product[]`);
this decoder makes explicit the shape assumption under which the untyped
render of `Home` is the typed render `renderPage`.  `none` marks data outside
the `Product` shape. -/
def decodeProduct (v : JsValue) : Option Product :=
  match v with
  | JsValue.obj fields => do
    let id ← (fields.lookup "id").bind jNum
    let title ← (fields.lookup "title").bind jStr
    let price ← (fields.lookup "price").bind jNum
    let description ← (fields.lookup "description").bind jStr
    let category ← (fields.lookup "category").bind jStr
    let image ← (fields.lookup "image").bind jStr
    let rating ← (fields.lookup "rating").bind decodeRating
    pure { id := id, title := title, price := price, description := description,
           category := category, image := image, rating := rating }
  | _ => none

/-- Reads a JSON value as a list of `Product` records: it must be an array
whose every element decodes. -/
def asProducts (v : JsValue) : Option (List Product) :=
  match v with
  | JsValue.arr items => items.mapM decodeProduct
  | _ => none

/-- The `Home` page component (lines 44–111): fetch, then render.  The
result is `some page` when the value returned by `getProducts` matches the
`Product[]` shape the JSX destructures; `none` marks the off-contract case
where the untyped render would fail at runtime. -/
def Home (f : FetchAttempt) : Option Page :=
  (asProducts (getProducts f)).map renderPage

/-- The three failure outcomes of a fetch named by the specification:
transport failure, non-success HTTP status, response body that fails to
parse as JSON. -/
def isFailureOutcome (f : FetchAttempt) : Prop :=
  f = FetchAttempt.transportError ∨
  (∃ r, f = FetchAttempt.ok r ∧ respOk r.status = false) ∨
  (∃ r, f = FetchAttempt.ok r ∧ r.body = none)

/-- A 500 response: `res.ok` is false, so `getProducts` throws before ever
reading the body. -/
def resp500 : FetchResponse :=
  { status := 500, statusText := "Internal Server Error", body := none }

/-- A 200 response whose body is not valid JSON, so `res.json()` throws. -/
def badJsonResp : FetchResponse :=
  { status := 200, statusText := "OK", body := none }

/-- A JSON value that is well-formed JSON but not an array of Product
records. -/
def malformedBody : JsValue :=
  JsValue.obj [("message", JsValue.str "not a product array")]

/-- A 200 response whose body parses as `malformedBody`. -/
def malformedResp : FetchResponse :=
  { status := 200, statusText := "OK", body := some malformedBody }

/-- A sample product with a short title and description. -/
def pShort : Product :=
  { id := 1
    title := "Short title"
    price := 10
    description := "A short description"
    category := "electronics"
    image := "https://example.com/a.png"
    rating := { rate := 4, count := 7 } }

/-- A sample product whose title has 60 characters. -/
def pLong : Product :=
  { pShort with id := 2, title := String.mk (List.replicate 60 'a') }

/-- A sample product whose description has 150 characters. -/
def pLongDesc : Product :=
  { pShort with id := 3, description := String.mk (List.replicate 150 'b') }

/-- A sample product whose price is the whole number 100. -/
def p100 : Product :=
  { pShort with id := 4, price := 100 }

/-- A sample non-empty product list. -/
def sampleProducts : List Product := [pShort, pLong]

/-- The sample product of the specification: price 109.95, rating rate 3.9,
rating count 120, category `men's clothing`. -/
def c8Product : Product :=
  { id := 1
    title := "Mens Casual Slim Fit"
    price := mkRat 10995 100
    description := "A slim fit casual shirt"
    category := "men\x27s clothing"
    image := "https://example.com/shirt.png"
    rating := { rate := mkRat 39 10, count := 120 } }

/-- Number of product cards rendered by a `HomeBody`: the empty state has
none. -/
def countCards : HomeBody → Nat
  | HomeBody.emptyState _ => 0
  | HomeBody.grid cards => cards.length

/-- C1: for every failure outcome of the fetch — transport exception,
non-success HTTP status, or body that fails to parse — `getProducts`
returns the empty list (it is a total function: the `catch` handler turns
every exception into `[]`, so no exception reaches `Home`), and the page
then renders the empty-state message; in particular this covers an HTTP 500
response. -/
theorem getProducts_failure_empty (f : FetchAttempt) (h : isFailureOutcome f) :
    getProducts f = JsValue.arr [] ∧
    Home f = some { heading := "产品列表", body := HomeBody.emptyState "暂无产品数据" } := by
  have hempty : getProducts f = JsValue.arr [] := by
    rcases h with h | ⟨r, rfl, hr⟩ | ⟨r, rfl, hb⟩
    · subst h; rfl
    · simp [getProducts, getProductsTry, hr]
    · cases hok : respOk r.status <;> simp [getProducts, getProductsTry, hb, hok]
  refine ⟨hempty, ?_⟩
  unfold Home
  rw [hempty]
  rfl

/-- C1 witness: the concrete HTTP 500 response yields the empty list and the
empty-state render, with no exception escaping. -/
theorem getProducts_failure_empty_witness :
    isFailureOutcome (FetchAttempt.ok resp500) ∧
    (getProducts (FetchAttempt.ok resp500) = JsValue.arr [] ∧
     Home (FetchAttempt.ok resp500) =
       some { heading := "产品列表", body := HomeBody.emptyState "暂无产品数据" }) := by
  have h : isFailureOutcome (FetchAttempt.ok resp500) :=
    Or.inr (Or.inl ⟨resp500, rfl, by decide⟩)
  exact ⟨h, getProducts_failure_empty (FetchAttempt.ok resp500) h⟩

/-- C2 counterexample: a 200 response whose body is well-formed JSON but not
an array of Product records is NOT treated as a failure — `getProducts`
returns the parsed object verbatim, not the empty list, and the untyped
render of `Home` then falls outside the `Product[]` contract. -/
theorem getProducts_nonarray_counterexample :
    getProducts (FetchAttempt.ok malformedResp) = malformedBody ∧
    getProducts (FetchAttempt.ok malformedResp) ≠ JsValue.arr [] ∧
    Home (FetchAttempt.ok malformedResp) = none := by
  have h1 : getProducts (FetchAttempt.ok malformedResp) = malformedBody := rfl
  refine ⟨h1, ?_, rfl⟩
  rw [h1]
  simp [malformedBody]

/-- C2 amended: only a body that fails JSON parsing (`res.json()` throws) is
treated as a failure and converted to the empty list, exactly as a non-2xx
status is; a body that is well-formed JSON but not an array of Product
records is returned verbatim with no validation. -/
theorem getProducts_parse_vs_validation (r : FetchResponse) :
    (respOk r.status = true → r.body = none →
       getProducts (FetchAttempt.ok r) = JsValue.arr []) ∧
    (respOk r.status = false → getProducts (FetchAttempt.ok r) = JsValue.arr []) ∧
    (∀ v, respOk r.status = true → r.body = some v →
       getProducts (FetchAttempt.ok r) = v) := by
  refine ⟨fun hok hb => ?_, fun hok => ?_, fun v hok hb => ?_⟩
  · simp [getProducts, getProductsTry, hok, hb]
  · simp [getProducts, getProductsTry, hok]
  · simp [getProducts, getProductsTry, hok, hb]

/-- C2 witness: a 200 response with a non-JSON body yields the empty list,
while a 200 response whose body is the well-formed non-array JSON value is
passed through verbatim. -/
theorem getProducts_parse_vs_validation_witness :
    getProducts (FetchAttempt.ok badJsonResp) = JsValue.arr [] ∧
    getProducts (FetchAttempt.ok malformedResp) = malformedBody :=
  ⟨(getProducts_parse_vs_validation badJsonResp).1 rfl rfl,
   (getProducts_parse_vs_validation malformedResp).2.2 malformedBody rfl rfl⟩

/-- C3: the empty product list renders exactly the single empty-state
message `暂无产品数据` and zero product cards — the `emptyState` constructor
carries nothing but the message (the centering is the `text-center` utility
class on its wrapper). -/
theorem renderHome_empty_state (ps : List Product) (h : ps = []) :
    renderHome ps = HomeBody.emptyState "暂无产品数据" ∧
    countCards (renderHome ps) = 0 := by
  subst h
  exact ⟨rfl, rfl⟩

/-- C3 witness: the claim instantiated at the concrete empty list. -/
theorem renderHome_empty_state_witness :
    ([] : List Product) = [] ∧
    (renderHome [] = HomeBody.emptyState "暂无产品数据" ∧
     countCards (renderHome []) = 0) :=
  ⟨rfl, renderHome_empty_state [] rfl⟩

/-- C4: a title of at most 50 characters is rendered unchanged; a longer one
is rendered as exactly its first 50 characters followed by the ellipsis
marker `...` — a pure function of character count with no word-boundary
awareness. -/
theorem renderCard_title_truncation (p : Product) :
    (p.title.length ≤ 50 → (renderCard p).titleText = p.title) ∧
    (p.title.length > 50 → (renderCard p).titleText = p.title.take 50 ++ "...") := by
  constructor
  · intro h
    simp [renderCard, Nat.not_lt.mpr h]
  · intro h
    simp [renderCard, h]

/-- C4 witness: an 11-character title is unchanged and a 60-character title
is truncated to its first 50 characters plus `...`. -/
theorem renderCard_title_truncation_witness :
    (pShort.title.length ≤ 50 ∧ (renderCard pShort).titleText = pShort.title) ∧
    (pLong.title.length > 50 ∧
     (renderCard pLong).titleText = pLong.title.take 50 ++ "...") :=
  ⟨⟨by decide, (renderCard_title_truncation pShort).1 (by decide)⟩,
   ⟨by decide, (renderCard_title_truncation pLong).2 (by decide)⟩⟩

/-- C5: a description of at most 100 characters is rendered unchanged; a
longer one is rendered as exactly its first 100 characters followed by the
ellipsis marker `...`. -/
theorem renderCard_description_truncation (p : Product) :
    (p.description.length ≤ 100 → (renderCard p).descriptionText = p.description) ∧
    (p.description.length > 100 →
       (renderCard p).descriptionText = p.description.take 100 ++ "...") := by
  constructor
  · intro h
    simp [renderCard, Nat.not_lt.mpr h]
  · intro h
    simp [renderCard, h]

set_option maxRecDepth 4000 in
/-- C5 witness: a 19-character description is unchanged and a 150-character
description is truncated to its first 100 characters plus `...`. -/
theorem renderCard_description_truncation_witness :
    (pShort.description.length ≤ 100 ∧
     (renderCard pShort).descriptionText = pShort.description) ∧
    (pLongDesc.description.length > 100 ∧
     (renderCard pLongDesc).descriptionText = pLongDesc.description.take 100 ++ "...") :=
  ⟨⟨by decide, (renderCard_description_truncation pShort).1 (by decide)⟩,
   ⟨by decide, (renderCard_description_truncation pLongDesc).2 (by decide)⟩⟩

/-- C6: for every product list, the number of rendered cards equals the
length of the list — the grid maps each product to exactly one card, and the
empty list renders zero cards. -/
theorem renderHome_card_count (ps : List Product) :
    countCards (renderHome ps) = ps.length := by
  unfold renderHome
  split
  · rename_i h
    simp [countCards, h]
  · simp [countCards]

/-- C7: for every non-empty product list the rendered output is the grid,
with one card per product, and the card at every position `i` is the render
of the product at the same position `i` — no reordering, no filtering, no
deduplication. -/
theorem renderHome_preserves_order (ps : List Product) (h : ps ≠ []) :
    ∃ cs : List Card, renderHome ps = HomeBody.grid cs ∧ cs.length = ps.length ∧
      ∀ i : Nat, ∀ hi : i < ps.length, ∀ hc : i < cs.length,
        cs.get ⟨i, hc⟩ = renderCard (ps.get ⟨i, hi⟩) := by
  refine ⟨ps.map renderCard, ?_, by simp, ?_⟩
  · unfold renderHome
    rw [if_neg]
    simpa using h
  · intro i hi hc
    simp

/-- C7 witness: the claim instantiated at a concrete two-product list. -/
theorem renderHome_preserves_order_witness :
    sampleProducts ≠ [] ∧
    (∃ cs : List Card, renderHome sampleProducts = HomeBody.grid cs ∧
      cs.length = sampleProducts.length ∧
      ∀ i : Nat, ∀ hi : i < sampleProducts.length, ∀ hc : i < cs.length,
        cs.get ⟨i, hc⟩ = renderCard (sampleProducts.get ⟨i, hi⟩)) := by
  have h : sampleProducts ≠ [] := by simp [sampleProducts]
  exact ⟨h, renderHome_preserves_order sampleProducts h⟩

/-- C8: for the specification sample product — price 109.95, rating rate
3.9, rating count 120, category `men's clothing` — the rendered card shows
the price text `$109.95`, the star glyph `★` next to the rating text
`3.9 (120)`, and the pill-shaped (`rounded-full`) category label reading
`men's clothing`. -/
theorem renderCard_c8_sample :
    (renderCard c8Product).priceText = "$109.95" ∧
    (renderCard c8Product).ratingStarText = "★" ∧
    (renderCard c8Product).ratingText = "3.9 (120)" ∧
    (renderCard c8Product).categoryText = "men\x27s clothing" ∧
    c8Product.price = 109.95 ∧
    c8Product.rating.rate = 3.9 ∧
    c8Product.rating.count = 120 :=
  ⟨by decide, rfl, by decide, rfl,
   by norm_num [c8Product], by norm_num [c8Product], by norm_num [c8Product]⟩

/-- C9: rendering is deterministic in the input list — two renders of equal
product lists produce identical pages (the renderer is embedded as a pure
function of the list, with no other input). -/
theorem renderPage_deterministic (ps qs : List Product) (h : ps = qs) :
    renderPage ps = renderPage qs := by
  rw [h]

/-- C9 witness: the claim instantiated at a concrete list. -/
theorem renderPage_deterministic_witness :
    sampleProducts = sampleProducts ∧
    renderPage sampleProducts = renderPage sampleProducts :=
  ⟨rfl, renderPage_deterministic sampleProducts sampleProducts rfl⟩

/-- C10: the rendered price text is the dollar sign followed by the default
JavaScript string conversion of the price number — in particular a
whole-number price of 100 renders as `$100`, with no fixed two-decimal
formatting. -/
theorem renderCard_price_text (p : Product) :
    (renderCard p).priceText = "$" ++ jsNumToString p.price ∧
    (p.price = 100 → (renderCard p).priceText = "$100") := by
  refine ⟨rfl, fun h => ?_⟩
  have hp : (renderCard p).priceText = "$" ++ jsNumToString p.price := rfl
  rw [hp, h]
  rfl

/-- C10 witness: a concrete product with price 100 renders the price text
`$100`. -/
theorem renderCard_price_text_witness :
    p100.price = 100 ∧ (renderCard p100).priceText = "$100" :=
  ⟨rfl, (renderCard_price_text p100).2 rfl⟩
